import Mathlib

/-!
Verification of the download-and-cache resolution engine of `musicbot/entry.py`.

The Python source is shallowly embedded:
pure string manipulation (`split`, `rsplit`, `os.path.basename`, the hash-name
splice) becomes Lean functions on `String`; the filesystem becomes an explicit
association list of `(path, size)` pairs threaded through the operations;
fallible OS calls (`os.unlink`, `os.rename`) return `Option`; the asyncio
future list becomes an explicit list of `Future` records; the thread-offloaded
osu download path becomes a small labelled transition system whose operations
are the readiness requests, the coroutine runs and the worker-job completions.
-/

/-! ## Python string primitives -/

/-- Characters of `l` strictly before the first occurrence of `c`; all of `l`
if `c` does not occur.  Models `s.split(c)[0]`. -/
def takeUntil (c : Char) : List Char → List Char
  | [] => []
  | x :: xs => if x == c then [] else x :: takeUntil c xs

/-- Split a character list at the LAST occurrence of `c`: returns the parts
strictly before and strictly after it, or `none` when `c` does not occur. -/
def rsplitOnceAux (c : Char) : List Char → Option (List Char × List Char)
  | [] => none
  | x :: xs =>
    match rsplitOnceAux c xs with
    | some (a, b) => some (x :: a, b)
    | none => if x == c then some ([], xs) else none

/-- Models `s.rsplit(c, 1)` when it yields two pieces; `none` when `c` is
absent from `s` (Python then yields the one-element list `[s]`). -/
def pyRsplitOnce (c : Char) (s : String) : Option (String × String) :=
  match rsplitOnceAux c s.data with
  | some (a, b) => some (⟨a⟩, ⟨b⟩)
  | none => none

/-- Models `s.rsplit(c, 1)[0]`: the part before the last `c`, or the whole
string when `c` is absent. -/
def pyRsplitStem (c : Char) (s : String) : String :=
  match pyRsplitOnce c s with
  | some (a, _) => a
  | none => s

/-- Models `s.split(c)[0]`. -/
def pySplitFirst (c : Char) (s : String) : String :=
  ⟨takeUntil c s.data⟩

/-- Models `os.path.basename` for '/'-separated paths. -/
def basename (s : String) : String :=
  match pyRsplitOnce '/' s with
  | some (_, b) => b
  | none => s

/-- Models `os.path.dirname` for '/'-separated paths. -/
def dirname (s : String) : String :=
  match pyRsplitOnce '/' s with
  | some (a, _) => a
  | none => ""

/-- Models Python `list.index(t)` (first occurrence; the callers below only
use it under an `in` guard, where Python's exception cannot fire). -/
def pyIndex (t : String) : List String → Nat
  | [] => 0
  | x :: xs => if x = t then 0 else pyIndex t xs + 1

/-- Models the hashed-name splice
`md5sum(unhashed, 8).join('-.').join(unhashed.rsplit('.', 1))`:
with `h8` the 8-character content hash, this is
`base ++ "-" ++ h8 ++ "." ++ ext` when `unhashed = base.ext`, and `unhashed`
itself when it has no dot (joining a one-element list returns its element). -/
def hashedName (h8 unhashed : String) : String :=
  match pyRsplitOnce '.' unhashed with
  | some (base, ext) => base ++ "-" ++ h8 ++ "." ++ ext
  | none => unhashed

/-- Python truthiness of the `filename` attribute (`None` and `""` are
falsy). -/
def pyTruthy : Option String → Bool
  | none => false
  | some s => !(s == "")

/-! ## Filesystem model

The filesystem is an association list of `(full path, byte size)` pairs with
unique paths. -/

abbrev FS := List (String × Nat)

/-- Models `os.path.isfile` / existence of a path. -/
def FS.hasFile (fs : FS) (p : String) : Bool :=
  fs.any (fun f => f.1 == p)

/-- Models `os.path.getsize` (callers only use it on listed files). -/
def FS.getsize (fs : FS) (p : String) : Nat :=
  ((fs.find? (fun f => f.1 == p)).map (fun f => f.2)).getD 0

/-- A download writing a file at path `p` with `sz` bytes. -/
def FS.add (fs : FS) (p : String) (sz : Nat) : FS :=
  (p, sz) :: fs.filter (fun f => f.1 != p)

/-- Models `os.unlink`: `none` is the `FileNotFoundError` raised on a missing
path. -/
def FS.unlink (fs : FS) (p : String) : Option FS :=
  if FS.hasFile fs p then some (fs.filter (fun f => f.1 != p)) else none

/-- Models `os.rename`: `none` is the `FileNotFoundError` raised when the
source path does not exist. -/
def FS.rename (fs : FS) (src dst : String) : Option FS :=
  if FS.hasFile fs src then
    some ((dst, FS.getsize fs src) :: fs.filter (fun f => f.1 != src && f.1 != dst))
  else none

/-- Models `os.listdir(folder)` (basenames of the files whose directory is
`folder`, in the storage order of the model). -/
def listdir (fs : FS) (folder : String) : List String :=
  (fs.filter (fun f => dirname f.1 == folder)).map (fun f => basename f.1)

/-! ## Futures and the entry data model -/

/-- An asyncio future handed out by `get_ready_future`, identified by `id`;
`cancelled` is whether its owner cancelled it before the resolution pass. -/
structure Future where
  id : Nat
  cancelled : Bool
deriving DecidableEq, Repr

/-- Outcome of invoking `future.set_result` / `future.set_exception` on one
future (`err` models the callback itself raising). -/
inductive CbRes where
  | ok
  | err
deriving DecidableEq, Repr

/-- What the resolution pass did with one future, in pass order. -/
inductive REvent where
  | skipped (fid : Nat)
  | resolved (fid : Nat)
  | errorLogged (fid : Nat)
deriving DecidableEq, Repr

/-- The future an event belongs to. -/
def REvent.fid : REvent → Nat
  | .skipped n => n
  | .resolved n => n
  | .errorLogged n => n

/-- `URLPlaylistEntry` (with the `BasePlaylistEntry` fields `filename`,
`_is_downloading`, `_waiting_futures`).  `playlist`, `meta` and the download
folder are external collaborators and appear as parameters where needed. -/
structure URLEntry where
  url : String
  title : String
  duration : Nat
  expectedFilename : Option String
  filename : Option String
  isDownloading : Bool
  waiting : List Future
deriving DecidableEq, Repr

/-- The `is_downloaded` property of `BasePlaylistEntry`: `False` while
`_is_downloading`, otherwise `bool(self.filename)`. -/
def URLEntry.is_downloaded (e : URLEntry) : Bool :=
  if e.isDownloading then false else pyTruthy e.filename

/-- Whether `get_ready_future` resolved the returned handle on the spot
(with the entry itself) or left it pending in the waiting list. -/
inductive ReadyOutcome where
  | resolvedNow
  | pending
deriving DecidableEq, Repr

/-- `BasePlaylistEntry.get_ready_future`: returns the updated entry, whether
the new future `f` was resolved immediately, and whether a `_download` task
was scheduled via `asyncio.ensure_future`. -/
def getReadyFuture (e : URLEntry) (f : Future) : URLEntry × ReadyOutcome × Bool :=
  if e.is_downloaded then (e, ReadyOutcome.resolvedNow, false)
  else ({ e with waiting := e.waiting ++ [f] }, ReadyOutcome.pending, true)

/-- The loop body of `_for_each_future`: walk the swapped-out list in order,
skip cancelled futures, invoke `cb` on the rest and absorb (log) any error it
raises, then continue with the remaining futures. -/
def resolveLoop (cb : Future → CbRes) : List Future → List REvent
  | [] => []
  | f :: rest =>
    if f.cancelled then REvent.skipped f.id :: resolveLoop cb rest
    else
      match cb f with
      | CbRes.ok => REvent.resolved f.id :: resolveLoop cb rest
      | CbRes.err => REvent.errorLogged f.id :: resolveLoop cb rest

/-- `BasePlaylistEntry._for_each_future`: swap out `_waiting_futures`
(leaving it empty), then run the resolution loop over the swapped-out list. -/
def forEachFuture (cb : Future → CbRes) (e : URLEntry) : URLEntry × List REvent :=
  ({ e with waiting := [] }, resolveLoop cb e.waiting)

/-! ## Serialization (`to_json` / `from_json`) -/

/-- The persisted record produced by `URLPlaylistEntry.to_json` (the `meta`
map is opaque to this core and omitted). -/
structure PersistedEntry where
  version : Nat
  entryType : String
  url : String
  title : String
  duration : Nat
  downloaded : Bool
  filename : Option String
deriving DecidableEq, Repr

/-- `URLPlaylistEntry.to_json`. -/
def toJson (e : URLEntry) : PersistedEntry :=
  { version := 1
    entryType := "URLPlaylistEntry"
    url := e.url
    title := e.title
    duration := e.duration
    downloaded := URLEntry.is_downloaded e
    filename := e.filename }

/-- `URLPlaylistEntry.from_json`: reads `url`, `title`, `duration`,
`downloaded` and (only when `downloaded`) `filename`, then calls
`cls(playlist, url, title, duration, filename, **meta)` — the fifth
positional argument of the constructor is `expected_filename`, and the base
constructor resets `filename` to `None` and `_is_downloading` to `False`. -/
def fromJson (p : PersistedEntry) : URLEntry :=
  { url := p.url
    title := p.title
    duration := p.duration
    expectedFilename := if p.downloaded then p.filename else none
    filename := none
    isDownloading := false
    waiting := [] }

/-! ## Cache-resolution decision (`_download`, lines 148-203) -/

/-- Python exceptions that the embedded code distinguishes. -/
inductive PyErr where
  | valueError
  | fileNotFound
  | extraction
deriving DecidableEq, Repr

/-- What the cache-resolution part of `_download` decides to do. -/
inductive Decision where
  | cached (path : String)
  | real (hashFlag : Bool)
deriving DecidableEq, Repr

/-- A decision or the Python exception that aborted it. -/
inductive DecisionResult where
  | err (e : PyErr)
  | ok (d : Decision)
deriving DecidableEq, Repr

/-- The cache-resolution logic of `URLPlaylistEntry._download`.
`probe` is the outcome of `int(await get_header(..., 'CONTENT-LENGTH'))`
(`none` when the probe or the int-parse raised, which the bare `except`
turns into `rsize = 0`); `size` is `os.path.getsize`.  In the generic branch
the two `os.listdir` calls both see `listing`.  The `valueError` case is the
two-name unpacking of `rsplit('.', 1)` when the expected basename has no
dot. -/
def downloadDecision (folder expected : String) (listing : List String)
    (probe : Option Nat) (size : String → Nat) : DecisionResult :=
  if pySplitFirst '-' (basename expected) = "generic" then
    match pyRsplitOnce '.' (basename expected) with
    | none => DecisionResult.err PyErr.valueError
    | some (noex, _) =>
      if noex ∈ listing.map (fun f => pyRsplitStem '-' f) then
        if size (folder ++ "/" ++ listing.getD (pyIndex noex (listing.map (fun f => pyRsplitStem '-' f))) "") ≠ probe.getD 0 then
          DecisionResult.ok (Decision.real true)
        else
          DecisionResult.ok (Decision.cached (folder ++ "/" ++ listing.getD (pyIndex noex (listing.map (fun f => pyRsplitStem '-' f))) ""))
      else DecisionResult.ok (Decision.real true)
  else
    if basename expected ∈ listing then
      DecisionResult.ok (Decision.cached (folder ++ "/" ++ basename expected))
    else if pyRsplitStem '.' (basename expected) ∈ listing.map (fun f => pyRsplitStem '.' f) then
      DecisionResult.ok (Decision.cached (folder ++ "/" ++ listing.getD (pyIndex (pyRsplitStem '.' (basename expected)) (listing.map (fun f => pyRsplitStem '.' f))) ""))
    else DecisionResult.ok (Decision.real false)

/-! ## Real download (`_really_download`) -/

/-- Result of one `_really_download` run: the filesystem afterwards, the value
written to `self.filename` (if the run got that far), and the exception that
escaped, if any. -/
structure RDResult where
  fs : FS
  filenameSet : Option String
  err : Option PyErr
deriving DecidableEq, Repr

/-- `URLPlaylistEntry._really_download`.  `extracted` is the outcome of the
delegated `extract_info(..., download=True)`: `none` covers both an extractor
exception and a `None` result (both raise `ExtractionError`); `some (p, sz)`
means the transfer succeeded, wrote `sz` bytes at `prepare_filename` path
`p`.  `h8` abstracts `md5sum(unhashed_fname, 8)`, the 8-character content
hash of the downloaded file.

The hash branch is transcribed exactly as written in the source: both
`os.unlink(unhashed_fname)` and `os.rename(unhashed_fname, self.filename)`
sit inside the `if os.path.isfile(self.filename)` block, so when the hashed
name already exists the rename runs after its source was unlinked (raising
`FileNotFoundError`), and when it does not exist no rename happens at all. -/
def reallyDownload (hashFlag : Bool) (extracted : Option (String × Nat))
    (h8 : String) (fs : FS) : RDResult :=
  match extracted with
  | none => ⟨fs, none, some PyErr.extraction⟩
  | some (unhashed, sz) =>
    if hashFlag then
      if FS.hasFile (FS.add fs unhashed sz) (hashedName h8 unhashed) then
        match FS.unlink (FS.add fs unhashed sz) unhashed with
        | none => ⟨FS.add fs unhashed sz, some (hashedName h8 unhashed), some PyErr.fileNotFound⟩
        | some fs2 =>
          match FS.rename fs2 unhashed (hashedName h8 unhashed) with
          | none => ⟨fs2, some (hashedName h8 unhashed), some PyErr.fileNotFound⟩
          | some fs3 => ⟨fs3, some (hashedName h8 unhashed), none⟩
      else ⟨FS.add fs unhashed sz, some (hashedName h8 unhashed), none⟩
    else ⟨FS.add fs unhashed sz, some unhashed, none⟩

/-! ## One complete `_download` run -/

/-- How one `_download` run ended: `busy` is the immediate return behind the
`_is_downloading` guard; `success` resolved the waiters with the entry;
`failure` resolved them with the caught exception. -/
inductive RunOutcome where
  | busy
  | success
  | failure
deriving DecidableEq, Repr

/-- The net result of one complete `URLPlaylistEntry._download` run. -/
structure RunResult where
  entry : URLEntry
  fs : FS
  events : List REvent
  outcome : RunOutcome
deriving DecidableEq, Repr

/-- One complete run of `URLPlaylistEntry._download` with the external
outcomes fixed: `probe` the content-length probe, `extracted` the extractor
outcome, `h8` the content hash.  Mirrors the source: the guard, the
try-body (cache decision, then either reuse or `_really_download`), the
success resolution pass, the exception handler's failure resolution pass,
and the `finally` that clears `_is_downloading`.  A missing
`expected_filename` makes `os.path.basename(None)` raise, landing in the
handler. -/
def downloadStep (folder : String) (e : URLEntry) (fs : FS) (probe : Option Nat)
    (extracted : Option (String × Nat)) (h8 : String) : RunResult :=
  if e.isDownloading then ⟨e, fs, [], RunOutcome.busy⟩
  else
    match e.expectedFilename with
    | none =>
      ⟨{ e with waiting := [], isDownloading := false }, fs,
        resolveLoop (fun _ => CbRes.ok) e.waiting, RunOutcome.failure⟩
    | some exp =>
      match downloadDecision folder exp (listdir fs folder) probe (FS.getsize fs) with
      | DecisionResult.err _ =>
        ⟨{ e with waiting := [], isDownloading := false }, fs,
          resolveLoop (fun _ => CbRes.ok) e.waiting, RunOutcome.failure⟩
      | DecisionResult.ok (Decision.cached p) =>
        ⟨{ e with filename := some p, waiting := [], isDownloading := false }, fs,
          resolveLoop (fun _ => CbRes.ok) e.waiting, RunOutcome.success⟩
      | DecisionResult.ok (Decision.real hf) =>
        match reallyDownload hf extracted h8 fs with
        | ⟨fs2, fset, some _⟩ =>
          ⟨{ e with
              filename := match fset with | some v => some v | none => e.filename,
              waiting := [], isDownloading := false }, fs2,
            resolveLoop (fun _ => CbRes.ok) e.waiting, RunOutcome.failure⟩
        | ⟨fs2, fset, none⟩ =>
          ⟨{ e with filename := fset, waiting := [], isDownloading := false }, fs2,
            resolveLoop (fun _ => CbRes.ok) e.waiting, RunOutcome.success⟩

/-! ## The osu entry variant (`OsuPlaylistEntry`) -/

/-- The `BasePlaylistEntry` fields of an `OsuPlaylistEntry`. -/
structure OsuEntry where
  filename : Option String
  isDownloading : Bool
  waiting : List Nat
deriving DecidableEq, Repr

/-- The `is_downloaded` property, inherited from `BasePlaylistEntry`. -/
def osuIsDownloaded (e : OsuEntry) : Bool :=
  if e.isDownloading then false else pyTruthy e.filename

/-- The osu variant plus its environment: `pendingJobs` counts
`_really_download` jobs submitted to the worker pool and not yet finished;
`resolvedNow` records, in order, the ids of futures that
`get_ready_future` resolved immediately. -/
structure OsuSys where
  entry : OsuEntry
  pendingJobs : Nat
  resolvedNow : List Nat
deriving DecidableEq, Repr

/-- Observable operations on an osu entry: a caller requesting readiness, the
scheduled `_download` coroutine running, and a submitted worker job
finishing (writing `filename`). -/
inductive OsuOp where
  | getReady (fid : Nat)
  | runDownloadTask
  | finishJob (path : String)
deriving DecidableEq, Repr

/-- One step of the osu system.

`getReady` is `get_ready_future`: resolve immediately when downloaded, else
append to the waiting list (a `_download` task is also scheduled; it appears
as a later `runDownloadTask` step).

`runDownloadTask` is `OsuPlaylistEntry._download`, which contains no `await`
and therefore runs atomically: behind the guard it sets `_is_downloading`,
submits `_really_download` to the thread pool WITHOUT awaiting the returned
future, and clears `_is_downloading` again before returning — so the flag is
`False` again while the job is still running, the job count grows on every
run, and `_waiting_futures` is never touched.

`finishJob` is the worker-pool job completing: it writes `self.filename` and
never resolves any waiting future. -/
def osuStep (s : OsuSys) (op : OsuOp) : OsuSys :=
  match op with
  | OsuOp.getReady fid =>
    if osuIsDownloaded s.entry then { s with resolvedNow := s.resolvedNow ++ [fid] }
    else { s with entry := { s.entry with waiting := s.entry.waiting ++ [fid] } }
  | OsuOp.runDownloadTask =>
    if s.entry.isDownloading then s
    else { s with pendingJobs := s.pendingJobs + 1 }
  | OsuOp.finishJob p =>
    if s.pendingJobs = 0 then s
    else { s with entry := { s.entry with filename := some p },
                  pendingJobs := s.pendingJobs - 1 }

/-- Run a sequence of osu operations from a state. -/
def osuRun (s : OsuSys) (ops : List OsuOp) : OsuSys :=
  ops.foldl osuStep s

/-! ## Helper lemmas -/

/-- The event produced for one future by the resolution loop. -/
def stepEvent (cb : Future → CbRes) (f : Future) : REvent :=
  if f.cancelled then REvent.skipped f.id
  else
    match cb f with
    | CbRes.ok => REvent.resolved f.id
    | CbRes.err => REvent.errorLogged f.id

theorem resolveLoop_fids (cb : Future → CbRes) (l : List Future) :
    List.map REvent.fid (resolveLoop cb l) = List.map Future.id l := by
  induction l with
  | nil => rfl
  | cons f rest ih =>
    by_cases hc : f.cancelled
    · simp [resolveLoop, hc, REvent.fid, ih]
    · cases hcb : cb f <;> simp [resolveLoop, hc, hcb, REvent.fid, ih]

theorem resolveLoop_get (cb : Future → CbRes) :
    ∀ (l : List Future) (i : Fin l.length),
      (resolveLoop cb l).getD i.val (REvent.skipped 0) = stepEvent cb (l.get i)
  | [], i => absurd i.isLt (by simp)
  | f :: rest, i => by
    cases i using Fin.cases with
    | zero =>
      by_cases hc : f.cancelled
      · simp [resolveLoop, hc, stepEvent]
      · cases hcb : cb f <;> simp [resolveLoop, hc, hcb, stepEvent]
    | succ j =>
      by_cases hc : f.cancelled
      · simpa [resolveLoop, hc] using resolveLoop_get cb rest j
      · cases hcb : cb f <;>
          simpa [resolveLoop, hc, hcb] using resolveLoop_get cb rest j

theorem pyIndex_map_get (g : String → String) (t : String) :
    ∀ l : List String, t ∈ l.map g →
      g (l.getD (pyIndex t (l.map g)) "") = t
  | [], h => absurd h (by simp)
  | x :: xs, h => by
    by_cases hx : g x = t
    · simp [pyIndex, hx]
    · have hmem : t ∈ xs.map g := by
        rcases List.mem_cons.mp h with h1 | h1
        · exact absurd h1.symm hx
        · exact h1
      simp only [List.map_cons, pyIndex, if_neg hx, List.getD_cons_succ]
      exact pyIndex_map_get g t xs hmem

theorem pyIndex_map_min (g : String → String) (t : String) :
    ∀ (l : List String) (j : Nat), j < pyIndex t (l.map g) →
      g (l.getD j "") ≠ t
  | [], j, h => by simp [pyIndex] at h
  | x :: xs, j, h => by
    by_cases hx : g x = t
    · rw [List.map_cons, pyIndex, if_pos hx] at h
      exact absurd h (by omega)
    · cases j with
      | zero => simpa using hx
      | succ k =>
        rw [List.map_cons, pyIndex, if_neg hx] at h
        have hk : k < pyIndex t (xs.map g) := by omega
        simpa using pyIndex_map_min g t xs k hk

/-- The generic-extractor branch of the cache decision, with a stem match
present: it reduces to the size comparison on the first matching file. -/
theorem downloadDecision_generic (folder expected noex ex : String)
    (listing : List String) (probe : Option Nat) (size : String → Nat)
    (hg : pySplitFirst '-' (basename expected) = "generic")
    (hs : pyRsplitOnce '.' (basename expected) = some (noex, ex))
    (hm : noex ∈ listing.map (fun f => pyRsplitStem '-' f)) :
    downloadDecision folder expected listing probe size =
      (if size (folder ++ "/" ++ listing.getD (pyIndex noex (listing.map (fun f => pyRsplitStem '-' f))) "") ≠ probe.getD 0
       then DecisionResult.ok (Decision.real true)
       else DecisionResult.ok (Decision.cached (folder ++ "/" ++ listing.getD (pyIndex noex (listing.map (fun f => pyRsplitStem '-' f))) ""))) := by
  unfold downloadDecision
  rw [hg, if_pos rfl, hs]
  dsimp only
  rw [if_pos hm]

/-- The stable-extractor branch of the cache decision, case by case. -/
theorem downloadDecision_stable (folder expected : String)
    (listing : List String) (probe : Option Nat) (size : String → Nat)
    (hng : pySplitFirst '-' (basename expected) ≠ "generic") :
    (basename expected ∈ listing →
      downloadDecision folder expected listing probe size
        = DecisionResult.ok (Decision.cached (folder ++ "/" ++ basename expected))) ∧
    (basename expected ∉ listing →
      pyRsplitStem '.' (basename expected) ∈ listing.map (fun f => pyRsplitStem '.' f) →
      downloadDecision folder expected listing probe size
        = DecisionResult.ok (Decision.cached (folder ++ "/" ++
            listing.getD (pyIndex (pyRsplitStem '.' (basename expected)) (listing.map (fun f => pyRsplitStem '.' f))) ""))) ∧
    (basename expected ∉ listing →
      pyRsplitStem '.' (basename expected) ∉ listing.map (fun f => pyRsplitStem '.' f) →
      downloadDecision folder expected listing probe size
        = DecisionResult.ok (Decision.real false)) := by
  unfold downloadDecision
  rw [if_neg hng]
  refine ⟨fun h1 => by rw [if_pos h1],
          fun h1 h2 => by rw [if_neg h1, if_pos h2],
          fun h1 h2 => by rw [if_neg h1, if_neg h2]⟩

/-! ## Claim theorems -/

/-- C1: the claim states that in the real-download path with hashing
requested, an existing file at the final hashed name makes the code delete
the fresh `unhashedFilename` and keep the pre-existing file, and that
otherwise `unhashedFilename` is renamed to the final hashed name.  The code
violates this: `os.rename` sits INSIDE the `os.path.isfile` branch, directly
after `os.unlink` of its own source.  Evaluated here: with an empty cache
(no collision) the run reports no error, `filename` is set to the hashed
path, yet no file exists there — the download stays at the unhashed path,
no rename ever happened; with a pre-existing file at the hashed name the
fresh file is unlinked and the rename then raises `FileNotFoundError`. -/
theorem c1_hash_rename_divergence :
    (reallyDownload true (some ("audio_cache/generic-song.mp3", 100)) "aabbccdd" []
      = ⟨[("audio_cache/generic-song.mp3", 100)],
         some "audio_cache/generic-song-aabbccdd.mp3", none⟩) ∧
    FS.hasFile (reallyDownload true (some ("audio_cache/generic-song.mp3", 100)) "aabbccdd" []).fs
      "audio_cache/generic-song-aabbccdd.mp3" = false ∧
    (reallyDownload true (some ("audio_cache/generic-song.mp3", 100)) "aabbccdd"
        [("audio_cache/generic-song-aabbccdd.mp3", 77)]).err
      = some PyErr.fileNotFound ∧
    FS.hasFile (reallyDownload true (some ("audio_cache/generic-song.mp3", 100)) "aabbccdd"
        [("audio_cache/generic-song-aabbccdd.mp3", 77)]).fs
      "audio_cache/generic-song.mp3" = false := by
  refine ⟨rfl, rfl, rfl, rfl⟩

/-- C2: the claim states that a completed `_download` run either leaves
`localFilePath` at an existing file or fails every waiter.  Evaluated at a
generic-extractor cache miss (the hash path): the run resolves its waiter
with SUCCESS, sets `filename` to the hashed path, and no file exists at that
path (the downloaded bytes sit at the unhashed name). -/
theorem c2_success_missing_file :
    (downloadStep "audio_cache"
        { url := "u", title := "t", duration := 0,
          expectedFilename := some "audio_cache/generic-song.mp3",
          filename := none, isDownloading := false,
          waiting := [{ id := 0, cancelled := false }] }
        [] none (some ("audio_cache/generic-song.mp3", 100)) "aabbccdd").outcome
      = RunOutcome.success ∧
    (downloadStep "audio_cache"
        { url := "u", title := "t", duration := 0,
          expectedFilename := some "audio_cache/generic-song.mp3",
          filename := none, isDownloading := false,
          waiting := [{ id := 0, cancelled := false }] }
        [] none (some ("audio_cache/generic-song.mp3", 100)) "aabbccdd").events
      = [REvent.resolved 0] ∧
    (downloadStep "audio_cache"
        { url := "u", title := "t", duration := 0,
          expectedFilename := some "audio_cache/generic-song.mp3",
          filename := none, isDownloading := false,
          waiting := [{ id := 0, cancelled := false }] }
        [] none (some ("audio_cache/generic-song.mp3", 100)) "aabbccdd").entry.filename
      = some "audio_cache/generic-song-aabbccdd.mp3" ∧
    FS.hasFile
      (downloadStep "audio_cache"
        { url := "u", title := "t", duration := 0,
          expectedFilename := some "audio_cache/generic-song.mp3",
          filename := none, isDownloading := false,
          waiting := [{ id := 0, cancelled := false }] }
        [] none (some ("audio_cache/generic-song.mp3", 100)) "aabbccdd").fs
      "audio_cache/generic-song-aabbccdd.mp3" = false := by
  refine ⟨rfl, rfl, rfl, rfl⟩

/-- C3: the claim states that for EVERY entry variant each handle appended to
the waiting list is resolved exactly once.  `OsuPlaylistEntry._download`
never calls `_for_each_future`, and the worker job only writes `filename`;
so a handle appended before an osu download is resolved zero times.
Evaluated: after request 0, the download run, the job completion and a later
request 1, handle 1 (arriving when `is_downloaded` is true) resolves
immediately, while handle 0 is still in the waiting list and received
nothing; moreover no osu transition ever removes (hence ever resolves)
a waiting handle. -/
theorem c3_osu_handle_never_resolved :
    (osuRun ⟨⟨none, false, []⟩, 0, []⟩
        [OsuOp.getReady 0, OsuOp.runDownloadTask, OsuOp.finishJob "song.mp3",
         OsuOp.getReady 1]
      = ⟨⟨some "song.mp3", false, [0]⟩, 0, [1]⟩) ∧
    (∀ (s : OsuSys) (op : OsuOp), ∃ t : List Nat,
      (osuStep s op).entry.waiting = s.entry.waiting ++ t) := by
  refine ⟨rfl, ?_⟩
  intro s op
  cases op with
  | getReady fid =>
    by_cases h : osuIsDownloaded s.entry
    · exact ⟨[], by simp [osuStep, h]⟩
    · exact ⟨[fid], by simp [osuStep, h]⟩
  | runDownloadTask =>
    refine ⟨[], ?_⟩
    by_cases h : s.entry.isDownloading <;> simp [osuStep, h]
  | finishJob p =>
    refine ⟨[], ?_⟩
    by_cases h : s.pendingJobs = 0 <;> simp [osuStep, h]

/-- C4: the claim states that at most one download runs per Entry at a time
and that the in-progress flag is reset in a guaranteed-cleanup step.
`OsuPlaylistEntry._download` submits `_really_download` to the worker pool
without awaiting it and clears `_is_downloading` inline immediately (no
try/finally), so the flag is already `False` while the job runs.  Evaluated:
after two readiness requests each followed by a `_download` run, TWO worker
jobs are in flight for the same entry at once. -/
theorem c4_osu_concurrent_downloads :
    osuRun ⟨⟨none, false, []⟩, 0, []⟩
        [OsuOp.getReady 0, OsuOp.runDownloadTask, OsuOp.getReady 1,
         OsuOp.runDownloadTask]
      = ⟨⟨none, false, [0, 1]⟩, 2, []⟩ := by
  rfl

/-- C5 counterexample: a downloaded entry does NOT round-trip through
`to_json`/`from_json` with the same `filename` and downloaded status:
`from_json` passes the persisted filename into the constructor's
`expected_filename` slot, and the base constructor resets `filename` to
`None`. -/
theorem c5_roundtrip_counterexample :
    URLEntry.is_downloaded
      { url := "u", title := "t", duration := 3,
        expectedFilename := some "audio_cache/youtube-x.mp3",
        filename := some "audio_cache/youtube-x.mp3",
        isDownloading := false, waiting := [] } = true ∧
    ¬ ((fromJson (toJson
          { url := "u", title := "t", duration := 3,
            expectedFilename := some "audio_cache/youtube-x.mp3",
            filename := some "audio_cache/youtube-x.mp3",
            isDownloading := false, waiting := [] })).filename
        = some "audio_cache/youtube-x.mp3" ∧
       URLEntry.is_downloaded (fromJson (toJson
          { url := "u", title := "t", duration := 3,
            expectedFilename := some "audio_cache/youtube-x.mp3",
            filename := some "audio_cache/youtube-x.mp3",
            isDownloading := false, waiting := [] })) = true) := by
  refine ⟨rfl, ?_⟩
  intro h
  exact absurd h.1 (by decide)

/-- C5 amended: the round trip preserves `url`, `title` and `duration`;
for a downloaded entry the persisted filename is restored into
`expected_filename` (the constructor's fifth positional parameter), while
the reconstructed entry's `filename` is `None` and its downloaded status is
`False`. -/
theorem c5_roundtrip_amended (e : URLEntry) :
    (fromJson (toJson e)).url = e.url ∧
    (fromJson (toJson e)).title = e.title ∧
    (fromJson (toJson e)).duration = e.duration ∧
    (fromJson (toJson e)).expectedFilename
      = (if URLEntry.is_downloaded e then e.filename else none) ∧
    (fromJson (toJson e)).filename = none ∧
    URLEntry.is_downloaded (fromJson (toJson e)) = false := by
  refine ⟨rfl, rfl, rfl, rfl, rfl, rfl⟩

/-- C6: the resolution pass swaps the waiting list out (leaving it empty),
touches the swapped-out handles in insertion order exactly once each,
skips cancelled handles without giving them a result, and logs a callback
error without aborting the remaining resolutions: the event at position `i`
is determined by handle `i` alone, so an earlier error never prevents the
later events. -/
theorem c6_resolution_pass (cb : Future → CbRes) (e : URLEntry) :
    (forEachFuture cb e).1.waiting = [] ∧
    List.map REvent.fid (forEachFuture cb e).2 = List.map Future.id e.waiting ∧
    (∀ i : Fin e.waiting.length,
      ((e.waiting.get i).cancelled = true →
        (forEachFuture cb e).2.getD i.val (REvent.skipped 0)
          = REvent.skipped (e.waiting.get i).id) ∧
      ((e.waiting.get i).cancelled = false → cb (e.waiting.get i) = CbRes.err →
        (forEachFuture cb e).2.getD i.val (REvent.skipped 0)
          = REvent.errorLogged (e.waiting.get i).id) ∧
      ((e.waiting.get i).cancelled = false → cb (e.waiting.get i) = CbRes.ok →
        (forEachFuture cb e).2.getD i.val (REvent.skipped 0)
          = REvent.resolved (e.waiting.get i).id)) := by
  refine ⟨rfl, resolveLoop_fids cb e.waiting, ?_⟩
  intro i
  have hget : (forEachFuture cb e).2.getD i.val (REvent.skipped 0)
      = stepEvent cb (e.waiting.get i) := resolveLoop_get cb e.waiting i
  refine ⟨fun hc => ?_, fun hc hcb => ?_, fun hc hcb => ?_⟩
  · rw [hget]; simp only [stepEvent]; rw [hc]; simp
  · rw [hget]; simp only [stepEvent]; rw [hc, hcb]; simp
  · rw [hget]; simp only [stepEvent]; rw [hc, hcb]; simp

/-- Concrete callback for the C6 witness: resolving future 11 raises, the
others succeed. -/
def cbW : Future → CbRes :=
  fun f => if f.id = 11 then CbRes.err else CbRes.ok

/-- Concrete entry for the C6 witness: a cancelled handle, then one whose
callback raises, then a normal one. -/
def eW : URLEntry :=
  { url := "u", title := "t", duration := 0, expectedFilename := none,
    filename := none, isDownloading := true,
    waiting := [{ id := 10, cancelled := true },
                { id := 11, cancelled := false },
                { id := 12, cancelled := false }] }

/-- C6 witness: at the concrete entry, the cancelled handle is skipped, the
raising callback is logged, and the handle after it is still resolved. -/
theorem c6_resolution_pass_witness :
    (forEachFuture cbW eW).1.waiting = [] ∧
    (forEachFuture cbW eW).2.getD 0 (REvent.skipped 0) = REvent.skipped 10 ∧
    (forEachFuture cbW eW).2.getD 1 (REvent.skipped 0) = REvent.errorLogged 11 ∧
    (forEachFuture cbW eW).2.getD 2 (REvent.skipped 0) = REvent.resolved 12 :=
  ⟨(c6_resolution_pass cbW eW).1,
   ((c6_resolution_pass cbW eW).2.2 ⟨0, by decide⟩).1 (by decide),
   (((c6_resolution_pass cbW eW).2.2 ⟨1, by decide⟩).2.1 (by decide) (by decide)),
   (((c6_resolution_pass cbW eW).2.2 ⟨2, by decide⟩).2.2 (by decide) (by decide))⟩

/-- C9: `get_ready_future` resolves the returned handle immediately (with
the entry itself) exactly when `is_downloaded` is true; `is_downloaded` is
the conjunction of not-downloading and a truthy `filename` (`InProgress`
reports not-downloaded even with a stale filename); otherwise the handle is
appended to the waiting list and a `_download` task is scheduled. -/
theorem c9_ready_future (e : URLEntry) (f : Future) :
    (URLEntry.is_downloaded e = (!e.isDownloading && pyTruthy e.filename)) ∧
    ((getReadyFuture e f).2.1 = ReadyOutcome.resolvedNow ↔
      (e.isDownloading = false ∧ pyTruthy e.filename = true)) ∧
    (URLEntry.is_downloaded e = false →
      (getReadyFuture e f).1.waiting = e.waiting ++ [f] ∧
      (getReadyFuture e f).2.2 = true) ∧
    (URLEntry.is_downloaded e = true →
      (getReadyFuture e f).1 = e ∧ (getReadyFuture e f).2.2 = false) := by
  unfold getReadyFuture URLEntry.is_downloaded
  by_cases hd : e.isDownloading
  · simp [hd]
  · by_cases hf : pyTruthy e.filename
    · simp [hd, hf]
    · simp [hd, hf]

/-- Concrete downloaded entry for the C9 witness. -/
def eReady : URLEntry :=
  { url := "u", title := "t", duration := 0,
    expectedFilename := some "audio_cache/youtube-x.mp3",
    filename := some "audio_cache/youtube-x.mp3",
    isDownloading := false, waiting := [] }

/-- Concrete not-downloaded entry for the C9 witness. -/
def eIdle : URLEntry :=
  { url := "u", title := "t", duration := 0,
    expectedFilename := some "audio_cache/youtube-x.mp3",
    filename := none, isDownloading := false, waiting := [] }

/-- C9 witness: a downloaded entry resolves the handle on the spot without
scheduling work; an idle entry appends the handle and schedules a
download. -/
theorem c9_ready_future_witness :
    ((getReadyFuture eReady { id := 0, cancelled := false }).2.1
       = ReadyOutcome.resolvedNow ∧
     (getReadyFuture eReady { id := 0, cancelled := false }).2.2 = false) ∧
    ((getReadyFuture eIdle { id := 1, cancelled := false }).1.waiting
       = eIdle.waiting ++ [{ id := 1, cancelled := false }] ∧
     (getReadyFuture eIdle { id := 1, cancelled := false }).2.2 = true) :=
  ⟨⟨(c9_ready_future eReady { id := 0, cancelled := false }).2.1.mpr
      ⟨by decide, by decide⟩,
    ((c9_ready_future eReady { id := 0, cancelled := false }).2.2.2
      (by decide)).2⟩,
   (c9_ready_future eIdle { id := 1, cancelled := false }).2.2.1 (by decide)⟩

/-- C7: in the generic-extractor branch with a stem candidate present, a
failed content-length probe acts as remote size 0; equal local and remote
sizes reuse the candidate with no download; unequal sizes invoke the real
download with hashing enabled — in particular a failed probe with a
non-empty local candidate always re-downloads. -/
theorem c7_generic_size_check (folder expected noex ex : String)
    (listing : List String) (probe : Option Nat) (size : String → Nat)
    (hg : pySplitFirst '-' (basename expected) = "generic")
    (hs : pyRsplitOnce '.' (basename expected) = some (noex, ex))
    (hm : noex ∈ listing.map (fun f => pyRsplitStem '-' f)) :
    (downloadDecision folder expected listing probe size =
      (if size (folder ++ "/" ++ listing.getD (pyIndex noex (listing.map (fun f => pyRsplitStem '-' f))) "") = probe.getD 0
       then DecisionResult.ok (Decision.cached (folder ++ "/" ++ listing.getD (pyIndex noex (listing.map (fun f => pyRsplitStem '-' f))) ""))
       else DecisionResult.ok (Decision.real true))) ∧
    (probe = none →
      size (folder ++ "/" ++ listing.getD (pyIndex noex (listing.map (fun f => pyRsplitStem '-' f))) "") ≠ 0 →
      downloadDecision folder expected listing probe size
        = DecisionResult.ok (Decision.real true)) := by
  have hbr := downloadDecision_generic folder expected noex ex listing probe size hg hs hm
  constructor
  · rw [hbr]
    by_cases hsz : size (folder ++ "/" ++ listing.getD (pyIndex noex (listing.map (fun f => pyRsplitStem '-' f))) "") = probe.getD 0
    · rw [if_pos hsz, if_neg (by simpa using hsz)]
    · rw [if_neg hsz, if_pos hsz]
  · intro hp hnz
    rw [hbr, hp]
    exact if_pos (by simpa using hnz)

/-- C7 witness: a present candidate of matching size is reused with no
download. -/
theorem c7_generic_size_check_witness :
    downloadDecision "audio_cache" "audio_cache/generic-song.mp3"
        ["generic-song-a1b2.mp3"] (some 1000) (fun _ => 1000)
      = DecisionResult.ok (Decision.cached "audio_cache/generic-song-a1b2.mp3") :=
  ((c7_generic_size_check "audio_cache" "audio_cache/generic-song.mp3"
      "generic-song" "mp3" ["generic-song-a1b2.mp3"] (some 1000) (fun _ => 1000)
      (by decide) (by decide) (by decide)).1).trans (by decide)

/-- C8: in the stable-extractor branch the decision is exactly: exact base
name in the listing reuses it verbatim; otherwise a stem match reuses that
file (extension drift); otherwise the real download runs with hashing
disabled. -/
theorem c8_stable_cache_decision (folder expected : String)
    (listing : List String) (probe : Option Nat) (size : String → Nat)
    (hng : pySplitFirst '-' (basename expected) ≠ "generic") :
    (basename expected ∈ listing →
      downloadDecision folder expected listing probe size
        = DecisionResult.ok (Decision.cached (folder ++ "/" ++ basename expected))) ∧
    (basename expected ∉ listing →
      pyRsplitStem '.' (basename expected) ∈ listing.map (fun f => pyRsplitStem '.' f) →
      downloadDecision folder expected listing probe size
        = DecisionResult.ok (Decision.cached (folder ++ "/" ++
            listing.getD (pyIndex (pyRsplitStem '.' (basename expected)) (listing.map (fun f => pyRsplitStem '.' f))) ""))) ∧
    (basename expected ∉ listing →
      pyRsplitStem '.' (basename expected) ∉ listing.map (fun f => pyRsplitStem '.' f) →
      downloadDecision folder expected listing probe size
        = DecisionResult.ok (Decision.real false)) :=
  downloadDecision_stable folder expected listing probe size hng

/-- C8 witness: extension drift (expected `.mp3`, cached `.m4a`) reuses the
stem-matching file. -/
theorem c8_stable_cache_decision_witness :
    downloadDecision "audio_cache" "audio_cache/youtube-b.mp3"
        ["youtube-b.m4a"] none (fun _ => 0)
      = DecisionResult.ok (Decision.cached "audio_cache/youtube-b.m4a") :=
  (((c8_stable_cache_decision "audio_cache" "audio_cache/youtube-b.mp3"
      ["youtube-b.m4a"] none (fun _ => 0) (by decide)).2.1
      (by decide) (by decide)).trans (by decide))

/-- C10: both stem-based cache lookups select, via `list.index`, the file at
the FIRST matching position of the directory listing: the selected file's
stem matches, every earlier listing position has a non-matching stem, and
the decision reuses exactly that file (the generic side under equal sizes,
the stable side under extension drift). -/
theorem c10_first_match (folder exp1 exp2 noex1 ex1 : String)
    (l1 l2 : List String) (probe : Option Nat) (size : String → Nat)
    (hg : pySplitFirst '-' (basename exp1) = "generic")
    (hs : pyRsplitOnce '.' (basename exp1) = some (noex1, ex1))
    (hm1 : noex1 ∈ l1.map (fun f => pyRsplitStem '-' f))
    (heq : size (folder ++ "/" ++ l1.getD (pyIndex noex1 (l1.map (fun f => pyRsplitStem '-' f))) "") = probe.getD 0)
    (hng : pySplitFirst '-' (basename exp2) ≠ "generic")
    (hnb : basename exp2 ∉ l2)
    (hm2 : pyRsplitStem '.' (basename exp2) ∈ l2.map (fun f => pyRsplitStem '.' f)) :
    (downloadDecision folder exp1 l1 probe size
       = DecisionResult.ok (Decision.cached (folder ++ "/" ++
           l1.getD (pyIndex noex1 (l1.map (fun f => pyRsplitStem '-' f))) "")) ∧
     pyRsplitStem '-' (l1.getD (pyIndex noex1 (l1.map (fun f => pyRsplitStem '-' f))) "") = noex1 ∧
     (∀ j, j < pyIndex noex1 (l1.map (fun f => pyRsplitStem '-' f)) →
        pyRsplitStem '-' (l1.getD j "") ≠ noex1)) ∧
    (downloadDecision folder exp2 l2 probe size
       = DecisionResult.ok (Decision.cached (folder ++ "/" ++
           l2.getD (pyIndex (pyRsplitStem '.' (basename exp2)) (l2.map (fun f => pyRsplitStem '.' f))) "")) ∧
     pyRsplitStem '.' (l2.getD (pyIndex (pyRsplitStem '.' (basename exp2)) (l2.map (fun f => pyRsplitStem '.' f))) "")
       = pyRsplitStem '.' (basename exp2) ∧
     (∀ j, j < pyIndex (pyRsplitStem '.' (basename exp2)) (l2.map (fun f => pyRsplitStem '.' f)) →
        pyRsplitStem '.' (l2.getD j "") ≠ pyRsplitStem '.' (basename exp2))) := by
  refine ⟨⟨?_, ?_, ?_⟩, ⟨?_, ?_, ?_⟩⟩
  · rw [downloadDecision_generic folder exp1 noex1 ex1 l1 probe size hg hs hm1,
       if_neg (by simpa using heq)]
  · exact pyIndex_map_get (fun f => pyRsplitStem '-' f) noex1 l1 hm1
  · exact pyIndex_map_min (fun f => pyRsplitStem '-' f) noex1 l1
  · exact (downloadDecision_stable folder exp2 l2 probe size hng).2.1 hnb hm2
  · exact pyIndex_map_get (fun f => pyRsplitStem '.' f) (pyRsplitStem '.' (basename exp2)) l2 hm2
  · exact pyIndex_map_min (fun f => pyRsplitStem '.' f) (pyRsplitStem '.' (basename exp2)) l2

/-- C10 witness: with two stem-matching entries in each listing, both
lookups reuse the file at the first matching position. -/
theorem c10_first_match_witness :
    downloadDecision "audio_cache" "audio_cache/generic-a.mp3"
        ["generic-a-x1.mp3", "generic-a-x2.mp3"] (some 5) (fun _ => 5)
      = DecisionResult.ok (Decision.cached "audio_cache/generic-a-x1.mp3") ∧
    downloadDecision "audio_cache" "audio_cache/youtube-b.mp3"
        ["youtube-b.m4a", "youtube-b.webm"] (some 5) (fun _ => 5)
      = DecisionResult.ok (Decision.cached "audio_cache/youtube-b.m4a") := by
  have h := c10_first_match "audio_cache" "audio_cache/generic-a.mp3"
      "audio_cache/youtube-b.mp3" "generic-a" "mp3"
      ["generic-a-x1.mp3", "generic-a-x2.mp3"] ["youtube-b.m4a", "youtube-b.webm"]
      (some 5) (fun _ => 5)
      (by decide) (by decide) (by decide) (by decide) (by decide) (by decide)
      (by decide)
  exact ⟨h.1.1.trans (by decide), h.2.1.trans (by decide)⟩
